import Mathlib

set_option maxRecDepth 8000

/-!
Shallow embedding of the financial-metrics summarization core of the
repository: the categorized summarizer and health scorer of
`app/tools/financial_report_compressor_tools.py` and the compression
renderers of `app/utils/financial_report_compressor_util.py`.

Numbers are modelled as rationals; a JSON `null` stored under a metric key is
modelled as `none`. A Python dict is modelled as an association list. Runtime
faults (comparing `None` against a number raises `TypeError` in Python) are
modelled with `Except PyErr`.
-/

/-- A JSON-style scalar stored in a summary mapping: number, string, or null. -/
inductive SVal where
  | num : ℚ → SVal
  | str : String → SVal
  | null : SVal
  deriving DecidableEq

/-- The flat `metric` mapping: metric names to number-or-null values
(`none` models a JSON `null` stored under the key). -/
abbrev Metric := List (String × Option ℚ)

/-- One data point of a quarterly/annual series (the code reads only `v`). -/
structure SeriesPoint where
  v : ℚ
  deriving DecidableEq

/-- The `series` object: optional `quarterly` and `annual` sub-mappings from
metric names to point sequences, most recent first. -/
structure SeriesData where
  quarterly : Option (List (String × List SeriesPoint)) := none
  annual : Option (List (String × List SeriesPoint)) := none
  deriving DecidableEq

/-- The raw provider record `{symbol, metric, series}`; every key may be
absent. -/
structure RawRecord where
  symbol : Option String := none
  metric : Metric := []
  series : Option SeriesData := none
  deriving DecidableEq

/-- Python runtime faults observable in the embedded fragment: comparing
`None` with a number raises `TypeError`. -/
inductive PyErr where
  | typeError
  deriving DecidableEq

/-- Rational multiplication in an executable normal form (the library's
`Rat.mul` is sealed against kernel reduction; this computes the same value,
see `ratMul_eq`). -/
def ratMul (a b : ℚ) : ℚ := mkRat (a.num * b.num) (a.den * b.den)

/-- Rational subtraction in an executable normal form; see `ratSub_eq`. -/
def ratSub (a b : ℚ) : ℚ := mkRat (a.num * b.den - b.num * a.den) (a.den * b.den)

/-- Rational absolute value in an executable normal form; see `ratAbs_eq`. -/
def ratAbs (a : ℚ) : ℚ := if a.num < 0 then mkRat (-a.num) a.den else a

/-- Rational division in an executable normal form; agrees with `a / b` for
`b ≠ 0`, see `ratDiv_eq`. -/
def ratDiv (a b : ℚ) : ℚ := mkRat (a.num * b.den * b.num.sign) (a.den * b.num.natAbs)

/-- Left-pad a numeral string with zeros up to the given width. -/
def padLeftZeros (s : String) (len : ℕ) : String :=
  String.mk (List.replicate (len - s.length) '0') ++ s

/-- Fixed-point decimal rendering of a rational with `dec` digits after the
point, as a Python format string such as `%.2f` renders a float: the
half-up rounding `⌊q * 10 ^ dec + 1 / 2⌋` computed on numerator and
denominator. -/
def formatFixed (q : ℚ) (dec : ℕ) : String :=
  let n : ℤ := Int.fdiv (2 * q.num * ((10 ^ dec : ℕ) : ℤ) + q.den) (2 * q.den)
  let sign := if n < 0 then "-" else ""
  let a : ℕ := n.natAbs
  if dec = 0 then sign ++ toString a
  else sign ++ toString (a / 10 ^ dec) ++ "." ++ padLeftZeros (toString (a % 10 ^ dec)) dec

/-- Python `v > t` where `v` may be `None` (a null metric value): comparing
`None` with a number raises `TypeError`. -/
def oGt (v : Option ℚ) (t : ℚ) : Except PyErr Bool :=
  match v with
  | none => Except.error PyErr.typeError
  | some x => Except.ok (decide (t < x))

/-- Python `v < t` where `v` may be `None`. -/
def oLt (v : Option ℚ) (t : ℚ) : Except PyErr Bool :=
  match v with
  | none => Except.error PyErr.typeError
  | some x => Except.ok (decide (x < t))

deriving instance DecidableEq for Except

/-- `str.upper()` over the ASCII strings in the record, in a form the kernel
evaluates (the library's `String.toUpper` recursion is opaque to it). -/
def upperStr (s : String) : String := String.mk (s.data.map Char.toUpper)

/-- `str.lower()`, likewise. -/
def lowerStr (s : String) : String := String.mk (s.data.map Char.toLower)

/-- Number-or-null lifted into a summary value. -/
def oSVal : Option ℚ → SVal
  | some q => SVal.num q
  | none => SVal.null

namespace Tools

/-- `financial_report_compressor_tools.get_metric`: `metric.get(key, default)`.
A Python `dict.get` returns the stored value whenever the key is present,
even when that stored value is `None`; the default is used only for an
absent key. -/
def get_metric (metric : Metric) (key : String) (default : Option ℚ := none) :
    Option ℚ :=
  match metric.lookup key with
  | some v => v
  | none => default

/-- `format_pct(value, multiplier=1)`: `"N/A"` for `None`, else the scaled
value rendered to two decimals with a trailing percent sign. -/
def format_pct (value : Option ℚ) (multiplier : ℚ := 1) : String :=
  match value with
  | none => "N/A"
  | some v => formatFixed (ratMul v multiplier) 2 ++ "%"

/-- `get_trend(current, growth)`: the qualitative trend classifier. -/
def get_trend (current growth : Option ℚ) : String :=
  match growth, current with
  | none, _ => "stable"
  | some _, none => "stable"
  | some g, some _ =>
    if g > 10 then "strong growth"
    else if g > 5 then "moderate growth"
    else if g < -10 then "declining"
    else if g < 0 then "slight decline"
    else "stable"

/-- Lines 103-109: the liquidity `working_capital_status` ladder over
`get_metric('currentRatioQuarterly', 0)`. -/
def workingCapitalStatus (metric : Metric) : Except PyErr String := do
  let wcRat := get_metric metric "currentRatioQuarterly" (some 0)
  if (← oGt wcRat (mkRat 3 2)) then return "healthy"  -- > 1.5
  else if (← oGt wcRat 1) then return "adequate"  -- > 1.0
  else return "tight"

/-- Lines 119-125: the `leverage_assessment` ladder over
`get_metric('totalDebt/totalEquityQuarterly', 0)`. -/
def leverageAssessment (metric : Metric) : Except PyErr String := do
  let dte := get_metric metric "totalDebt/totalEquityQuarterly" (some 0)
  if (← oGt dte 2) then return "high"  -- > 2.0
  else if (← oGt dte 1) then return "moderate"  -- > 1.0
  else return "low"

/-- Lines 166-180: the red-flag rules, evaluated in source order. -/
def redFlagsList (metric : Metric) : Except PyErr (List String) := do
  let f1 ← oLt (get_metric metric "currentRatioQuarterly" (some 2)) 1
  let f2 ← oGt (get_metric metric "totalDebt/totalEquityQuarterly" (some 0)) 2
  let f3 ← oLt (get_metric metric "netProfitMarginTTM" (some 0)) 0
  let f4 ← oLt (get_metric metric "epsGrowthTTMYoy" (some 0)) (-20)
  let f5 ← oLt (get_metric metric "quickRatioQuarterly" (some 2)) (mkRat 1 2)  -- < 0.5
  return (if f1 then ["Liquidity concern: Current ratio below 1.0"] else []) ++
    (if f2 then ["High leverage: Debt-to-equity above 2.0"] else []) ++
    (if f3 then ["Unprofitable: Negative net margin"] else []) ++
    (if f4 then
      ["Significant EPS decline: " ++ format_pct (get_metric metric "epsGrowthTTMYoy")]
     else []) ++
    (if f5 then ["Very low quick ratio: May struggle with short-term obligations"] else [])

/-- Lines 182-193: the highlight rules, evaluated in source order. -/
def highlightsList (metric : Metric) : Except PyErr (List String) := do
  let h1 ← oGt (get_metric metric "epsGrowthTTMYoy" (some 0)) 20
  let h2 ← oGt (get_metric metric "roeTTM" (some 0)) (mkRat 1 5)  -- > 0.20
  let h3 ← oGt (get_metric metric "currentRatioQuarterly" (some 0)) 2
  let h4 ← oGt (get_metric metric "revenueGrowthTTMYoy" (some 0)) 15
  return (if h1 then
      ["Strong EPS growth: " ++ format_pct (get_metric metric "epsGrowthTTMYoy") ++ " YoY"]
    else []) ++
    (if h2 then ["Excellent ROE: " ++ format_pct (get_metric metric "roeTTM") 100] else []) ++
    (if h3 then ["Strong liquidity position"] else []) ++
    (if h4 then
      ["High revenue growth: " ++ format_pct (get_metric metric "revenueGrowthTTMYoy")]
     else [])

/-- `_assess_overall_health` profitability ladder (lines 233-237). -/
def profitScore (metric : Metric) : Except PyErr ℕ := do
  if (← oGt (get_metric metric "netProfitMarginTTM" (some 0)) (mkRat 1 10)) then return 2  -- > 0.10
  else if (← oGt (get_metric metric "netProfitMarginTTM" (some 0)) 0) then return 1
  else return 0

/-- `_assess_overall_health` liquidity ladder (lines 239-243). -/
def liquidityScore (metric : Metric) : Except PyErr ℕ := do
  if (← oGt (get_metric metric "currentRatioQuarterly" (some 0)) (mkRat 3 2)) then return 2  -- > 1.5
  else if (← oGt (get_metric metric "currentRatioQuarterly" (some 0)) 1) then return 1
  else return 0

/-- `_assess_overall_health` leverage ladder (lines 245-249): note the
default of 3, so an unknown debt-to-equity scores 0 points. -/
def leverageScore (metric : Metric) : Except PyErr ℕ := do
  if (← oLt (get_metric metric "totalDebt/totalEquityQuarterly" (some 3)) 1) then return 2
  else if (← oLt (get_metric metric "totalDebt/totalEquityQuarterly" (some 3)) 2) then return 1
  else return 0

/-- `_assess_overall_health` growth ladder (lines 251-255). -/
def growthScore (metric : Metric) : Except PyErr ℕ := do
  if (← oGt (get_metric metric "epsGrowthTTMYoy" (some (-100))) 10) then return 2
  else if (← oGt (get_metric metric "epsGrowthTTMYoy" (some (-100))) 0) then return 1
  else return 0

/-- `_assess_overall_health` ROE ladder (lines 257-261). -/
def roeScore (metric : Metric) : Except PyErr ℕ := do
  if (← oGt (get_metric metric "roeTTM" (some 0)) (mkRat 3 20)) then return 2  -- > 0.15
  else if (← oGt (get_metric metric "roeTTM" (some 0)) (mkRat 1 10)) then return 1  -- > 0.10
  else return 0

/-- The additive 0-10 health score of `_assess_overall_health`. -/
def totalScoreOf (metric : Metric) : Except PyErr ℕ := do
  let s1 ← profitScore metric
  let s2 ← liquidityScore metric
  let s3 ← leverageScore metric
  let s4 ← growthScore metric
  let s5 ← roeScore metric
  return s1 + s2 + s3 + s4 + s5

/-- `_assess_overall_health(metric)` (lines 227-270): score then label. -/
def assess_overall_health (metric : Metric) : Except PyErr String := do
  let score ← totalScoreOf metric
  if score ≥ 8 then return "Strong"
  else if score ≥ 5 then return "Good"
  else if score ≥ 3 then return "Fair"
  else return "Weak"

/-- Lines 195-205: the `quarterly_trend` mapping, populated only when the
series has a quarterly EPS sequence whose first four entries hold at least
two points. The division is guarded by `recent_eps[1]['v'] != 0`. -/
def quarterlyTrendOf (series : SeriesData) : List (String × SVal) :=
  match series.quarterly with
  | none => []
  | some q =>
    match q.lookup "eps" with
    | none => []
    | some eps =>
      match eps.take 4 with
      | p0 :: p1 :: _ =>
        [("latest_quarter_eps", SVal.num p0.v),
         ("prior_quarter_eps", SVal.num p1.v),
         ("eps_qoq_change",
          SVal.str (format_pct
            (some (if p1.v ≠ 0 then ratMul (ratDiv (ratSub p0.v p1.v) (ratAbs p1.v)) 100 else 0)) 1))]
      | _ => []

end Tools

/-- The categorized summary compiled at lines 207-222: eight category
mappings plus highlights, red flags and the overall health label. -/
structure Summary where
  company : String
  snapshotDate : String
  valuation : List (String × SVal)
  profitability : List (String × SVal)
  liquidity : List (String × SVal)
  leverage : List (String × SVal)
  efficiency : List (String × SVal)
  performance : List (String × SVal)
  stockPerformance : List (String × SVal)
  quarterlyTrend : List (String × SVal)
  highlights : List String
  redFlags : List String
  overallHealth : String
  deriving DecidableEq

namespace Tools

/-- The summary dictionary literal of lines 208-222, given the already
computed assessment strings and signal lists. The empty highlight and
red-flag lists render to `["None identified"]` here, exactly as the source's
`highlights if highlights else ["None identified"]`. -/
def mkSummary (data : RawRecord) (wcs lev : String) (red_flags highlights : List String)
    (health : String) : Summary :=
  let metric := data.metric
  { company := upperStr (data.symbol.getD "UNKNOWN")
    snapshotDate := "Latest Available"
    valuation :=
      [("pe_ttm", oSVal (get_metric metric "peTTM")),
       ("forward_pe", oSVal (get_metric metric "forwardPE")),
       ("pb_ratio", oSVal (get_metric metric "pb")),
       ("ps_ratio", oSVal (get_metric metric "psTTM")),
       ("peg_ratio", oSVal (get_metric metric "pegTTM")),
       ("ev_ebitda", oSVal (get_metric metric "evEbitdaTTM")),
       ("market_cap", oSVal (get_metric metric "marketCapitalization")),
       ("enterprise_value", oSVal (get_metric metric "enterpriseValue"))]
    profitability :=
      [("eps_ttm", oSVal (get_metric metric "epsTTM")),
       ("eps_growth_ttm_yoy", SVal.str (format_pct (get_metric metric "epsGrowthTTMYoy"))),
       ("eps_growth_3y", SVal.str (format_pct (get_metric metric "epsGrowth3Y"))),
       ("net_margin_ttm", SVal.str (format_pct (get_metric metric "netProfitMarginTTM") 100)),
       ("operating_margin_ttm", SVal.str (format_pct (get_metric metric "operatingMarginTTM") 100)),
       ("gross_margin_ttm", SVal.str (format_pct (get_metric metric "grossMarginTTM") 100)),
       ("roe_ttm", SVal.str (format_pct (get_metric metric "roeTTM") 100)),
       ("roa_ttm", SVal.str (format_pct (get_metric metric "roaTTM") 100)),
       ("roic_ttm", SVal.str (format_pct (get_metric metric "roiTTM") 100)),
       ("trend", SVal.str (get_trend (get_metric metric "netProfitMarginTTM")
          (get_metric metric "netMarginGrowth5Y")))]
    liquidity :=
      [("current_ratio", oSVal (get_metric metric "currentRatioQuarterly")),
       ("quick_ratio", oSVal (get_metric metric "quickRatioQuarterly")),
       ("cash_per_share", oSVal (get_metric metric "cashPerSharePerShareQuarterly")),
       ("working_capital_status", SVal.str wcs)]
    leverage :=
      [("debt_to_equity", oSVal (get_metric metric "totalDebt/totalEquityQuarterly")),
       ("long_term_debt_to_equity", oSVal (get_metric metric "longTermDebt/equityQuarterly")),
       ("debt_to_assets", oSVal (get_metric metric "totalDebtToTotalAsset")),
       ("interest_coverage", oSVal (get_metric metric "netInterestCoverageTTM")),
       ("leverage_assessment", SVal.str lev)]
    efficiency :=
      [("asset_turnover_ttm", oSVal (get_metric metric "assetTurnoverTTM")),
       ("inventory_turnover_ttm", oSVal (get_metric metric "inventoryTurnoverTTM")),
       ("receivables_turnover_ttm", oSVal (get_metric metric "receivablesTurnoverTTM")),
       ("cash_flow_per_share_ttm", oSVal (get_metric metric "cashFlowPerShareTTM"))]
    performance :=
      [("revenue_growth_ttm_yoy", SVal.str (format_pct (get_metric metric "revenueGrowthTTMYoy"))),
       ("revenue_growth_3y", SVal.str (format_pct (get_metric metric "revenueGrowth3Y"))),
       ("revenue_per_share_ttm", oSVal (get_metric metric "revenuePerShareTTM")),
       ("dividend_yield", SVal.str (format_pct (get_metric metric "currentDividendYieldTTM") 100))]
    stockPerformance :=
      [("52_week_high", oSVal (get_metric metric "52WeekHigh")),
       ("52_week_low", oSVal (get_metric metric "52WeekLow")),
       ("52_week_return", SVal.str (format_pct (get_metric metric "52WeekPriceReturnDaily"))),
       ("ytd_return", SVal.str (format_pct (get_metric metric "yearToDatePriceReturnDaily"))),
       ("beta", oSVal (get_metric metric "beta")),
       ("vs_sp500_52week", SVal.str (format_pct (get_metric metric "priceRelativeToS&P50052Week"))),
       ("vs_sp500_ytd", SVal.str (format_pct (get_metric metric "priceRelativeToS&P500Ytd")))]
    quarterlyTrend := quarterlyTrendOf (data.series.getD {})
    highlights := if highlights.isEmpty then ["None identified"] else highlights
    redFlags := if red_flags.isEmpty then ["None identified"] else red_flags
    overallHealth := health }

/-- `summarize_finnhub_financials(data)` (lines 19-224): the categorized
summarizer. The fallible steps run in source order; a `TypeError` from a
threshold comparison against a null metric value propagates. -/
def summarize_finnhub_financials (data : RawRecord) : Except PyErr Summary := do
  let metric := data.metric
  let wcs ← workingCapitalStatus metric
  let lev ← leverageAssessment metric
  let rf ← redFlagsList metric
  let hl ← highlightsList metric
  let health ← assess_overall_health metric
  return mkSummary data wcs lev rf hl health

end Tools

/-- Is `p` a prefix of the second list? (character comparison on `==`). -/
def listPrefixEq : List Char → List Char → Bool
  | [], _ => true
  | _ :: _, [] => false
  | a :: as, b :: bs => a == b && listPrefixEq as bs

/-- Does the second list contain `p` as a contiguous run? Models the Python
substring test `p in s`. -/
def hasSub (p : List Char) : List Char → Bool
  | [] => listPrefixEq p []
  | c :: rest => listPrefixEq p (c :: rest) || hasSub p rest

/-- Python `pat in k`: case-sensitive substring containment. -/
def strContains (k pat : String) : Bool := hasSub pat.data k.data

/-- Replace every non-overlapping occurrence of `p` (non-empty) by `r`,
scanning left to right; the fuel starts above the list length so it never
runs out. -/
def replaceGo (p r : List Char) : ℕ → List Char → List Char
  | _, [] => []
  | 0, s => s
  | Nat.succ fuel, c :: rest =>
    if listPrefixEq p (c :: rest) then r ++ replaceGo p r fuel ((c :: rest).drop p.length)
    else c :: replaceGo p r fuel rest

/-- Python `s.replace(pat, rep)` for a non-empty pattern. -/
def replaceStr (s pat rep : String) : String :=
  if pat.data.isEmpty then s
  else String.mk (replaceGo pat.data rep.data (s.data.length + 1) s.data)

namespace Util

/-- `m.get(key)` in `financial_report_compressor_util`: the stored value if
present (`none` both for an absent key and for a stored null). -/
def mget (m : Metric) (key : String) : Option ℚ :=
  match m.lookup key with
  | some v => v
  | none => none

/-- The nested `fmt(key, mult=1, dec=2, suf='')` helper (lines 17-19):
`"N/A"` when the metric is missing or null, else the scaled value rendered
with `dec` decimals plus the suffix. -/
def fmt (m : Metric) (key : String) (mult : ℚ := 1) (dec : ℕ := 2) (suf : String := "") :
    String :=
  match mget m key with
  | none => "N/A"
  | some val => formatFixed (ratMul val mult) dec ++ suf

/-- The nested `get_trend(series_name, periods=4)` helper (lines 21-26):
null when the series is absent or shorter than `periods`, else the first
`periods` values reversed to chronological order, rendered to two decimals
and joined by an arrow separator. -/
def get_trend (q_series : List (String × List SeriesPoint)) (series_name : String)
    (periods : ℕ := 4) : Option String :=
  match q_series.lookup series_name with
  | none => none
  | some lst =>
    if lst.length < periods then none
    else
      let values := (lst.take periods).map (fun item => item.v)
      some (String.intercalate " → " (values.reverse.map (fun v => formatFixed v 2)))

/-- The brief one-liner of line 30, after the symbol header. -/
def briefBody (m : Metric) : String :=
  ": PE " ++ fmt m "peTTM" ++ " (PEG " ++ fmt m "pegTTM" ++ "), EPS $" ++ fmt m "epsTTM" ++
  " (" ++ fmt m "epsGrowthTTMYoy" 100 1 "%" ++ " YoY), ROE " ++ fmt m "roeTTM" 100 1 "%" ++
  ", D/E " ++ fmt m "totalDebt/totalEquityQuarterly" ++ ", YTD " ++
  fmt m "yearToDatePriceReturnDaily" 100 1 "%"

/-- The five sections shared by the standard and detailed levels
(lines 33-48), in source order. -/
def standardSections (m : Metric) : List String :=
  ["VALUATION: PE " ++ fmt m "peTTM" ++ " (Fwd " ++ fmt m "forwardPE" ++ "), PEG " ++
     fmt m "pegTTM" ++ ", P/B " ++ fmt m "pb" ++ ", P/S " ++ fmt m "psTTM" ++
     ", EV/EBITDA " ++ fmt m "evEbitdaTTM",
   "PROFITABILITY: EPS $" ++ fmt m "epsTTM" ++ " (" ++ fmt m "epsGrowthTTMYoy" 100 1 "%" ++
     " YoY), ROE " ++ fmt m "roeTTM" 100 1 "%" ++ ", ROA " ++ fmt m "roaTTM" 100 1 "%" ++
     ", Net Margin " ++ fmt m "netProfitMarginTTM" 100 1 "%" ++ ", Op Margin " ++
     fmt m "operatingMarginTTM" 100 1 "%",
   "GROWTH: Revenue " ++ fmt m "revenueGrowthTTMYoy" 100 1 "%" ++ " YoY, 3Y " ++
     fmt m "revenueGrowth3Y" 100 1 "%" ++ ", 5Y " ++ fmt m "revenueGrowth5Y" 100 1 "%" ++
     ", EPS 3Y " ++ fmt m "epsGrowth3Y" 100 1 "%" ++ ", 5Y " ++ fmt m "epsGrowth5Y" 100 1 "%",
   "HEALTH: D/E " ++ fmt m "totalDebt/totalEquityQuarterly" ++ ", Current " ++
     fmt m "currentRatioQuarterly" ++ ", Quick " ++ fmt m "quickRatioQuarterly" ++
     ", Cash/Share $" ++ fmt m "cashPerSharePerShareQuarterly",
   "PERFORMANCE: YTD " ++ fmt m "yearToDatePriceReturnDaily" 100 1 "%" ++ ", 52W " ++
     fmt m "52WeekPriceReturnDaily" 100 1 "%" ++ ", vs S&P " ++
     fmt m "priceRelativeToS&P50052Week" 100 1 "%" ++ ", Beta " ++ fmt m "beta"]

/-- The conditional quarterly-trend lines of the detailed level (lines 72-84):
each included only when its series has at least four points. -/
def trendLines (q_series : List (String × List SeriesPoint)) : List String :=
  (match get_trend q_series "eps" with
   | some t => ["EPS (4Q): " ++ t]
   | none => []) ++
  (match get_trend q_series "netMargin" with
   | some t => ["Net Margin: " ++ t]
   | none => []) ++
  (match get_trend q_series "roeTTM" with
   | some t => ["ROE: " ++ t]
   | none => [])

/-- The sections the detailed level appends after the standard five
(lines 53-92): cash flow, margins, efficiency, the dividend block only when
the yield is a positive number, price range, the quarterly-trend line only
when some trend exists, and the 3-year annual EPS line only when at least
three annual points exist. -/
def detailedExtraSections (m : Metric) (q_series a_series : List (String × List SeriesPoint)) :
    List String :=
  let sections :=
    ["CASH FLOW: FCF/Share $" ++ fmt m "cashFlowPerShareTTM" ++ ", FCF Margin " ++
       fmt m "focfCagr5Y" 100 1 "%" ++ " (5Y CAGR), P/FCF " ++ fmt m "pfcfShareTTM",
     "MARGINS: Gross " ++ fmt m "grossMarginTTM" 100 1 "%" ++ ", Operating " ++
       fmt m "operatingMarginTTM" 100 1 "%" ++ ", Pretax " ++ fmt m "pretaxMarginTTM" 100 1 "%" ++
       ", Net " ++ fmt m "netProfitMarginTTM" 100 1 "%",
     "EFFICIENCY: Asset Turnover " ++ fmt m "assetTurnoverTTM" ++ ", Inventory Turnover " ++
       fmt m "inventoryTurnoverTTM" ++ ", Receivables Turnover " ++
       fmt m "receivablesTurnoverTTM"]
  let sections := sections ++
    (match mget m "currentDividendYieldTTM" with
     | some dy =>
       if 0 < dy then
         ["DIVIDEND: Yield " ++ fmt m "currentDividendYieldTTM" 100 2 "%" ++
          ", Payout Ratio " ++ fmt m "payoutRatioTTM" 100 1 "%" ++ ", DPS $" ++
          fmt m "dividendPerShareTTM"]
       else []
     | none => [])
  let sections := sections ++
    ["PRICE RANGE: 52W High $" ++ fmt m "52WeekHigh" ++ ", Low $" ++ fmt m "52WeekLow" ++
     ", Current P/B " ++ fmt m "pb" ++ " vs Annual P/B " ++ fmt m "pbAnnual"]
  let trends := trendLines q_series
  let sections := sections ++
    (if trends.isEmpty then [] else ["QUARTERLY TRENDS: " ++ String.intercalate " | " trends])
  sections ++
    (match a_series.lookup "eps" with
     | some eps =>
       if 3 ≤ eps.length then
         ["ANNUAL EPS (3Y): " ++ String.intercalate " → "
            ((eps.take 3).reverse.map (fun item => formatFixed item.v 2))]
       else []
     | none => [])

/-- `create_comprehensive_summary(data, detail_level='standard')`
(lines 1-94). The level dispatch is the source's: `brief` returns the one
liner, `standard` returns the five sections, and EVERY other level string
falls through to the detailed rendering. -/
def create_comprehensive_summary (data : RawRecord) (detail_level : String := "standard") :
    String :=
  let m := data.metric
  let symbol := data.symbol.getD "Unknown"
  let q_series := ((data.series.getD {}).quarterly).getD []
  let a_series := ((data.series.getD {}).annual).getD []
  if detail_level = "brief" then
    symbol ++ briefBody m
  else if detail_level = "standard" then
    symbol ++ (" Financial Summary:\n\n" ++ String.intercalate "\n\n" (standardSections m))
  else
    symbol ++ (" Comprehensive Financial Analysis:\n\n" ++
      String.intercalate "\n\n" (standardSections m ++ detailedExtraSections m q_series a_series))

/-- The valuation bucket test of `create_structured_compression` (line 115). -/
def valPred (k : String) : Bool :=
  ["pe", "pb", "ps", "peg", "ev", "pfcf", "pcf"].any (fun x => strContains k x)

/-- The profitability bucket test (line 121). -/
def profPred (k : String) : Bool :=
  ["eps", "roe", "roa", "roi", "margin", "roic"].any (fun x => strContains k x)

/-- The growth bucket test (line 126). -/
def growthPred (k : String) : Bool := strContains k "Growth" || strContains k "Cagr"

/-- The health bucket test (line 132). -/
def healthPred (k : String) : Bool :=
  ["Debt", "Ratio", "cash"].any (fun x => strContains k x)

/-- The performance bucket test (line 137). -/
def perfPred (k : String) : Bool :=
  strContains k "Return" || strContains k "Week" || strContains (lowerStr k) "beta"

/-- The efficiency bucket test (line 142). -/
def effPred (k : String) : Bool := strContains k "Turnover" || strContains k "Employee"

/-- The dividend bucket test (line 147). -/
def divPred (k : String) : Bool :=
  strContains (lowerStr k) "dividend" || strContains (lowerStr k) "payout"

/-- Key renaming for the valuation bucket:
`k.replace('TTM','').replace('Annual','').replace('Quarterly','')`. -/
def stripVal (k : String) : String :=
  replaceStr (replaceStr (replaceStr k "TTM" "") "Annual" "") "Quarterly" ""

/-- Key renaming for the profitability bucket:
`k.replace('TTM','').replace('Annual','')`. -/
def stripProf (k : String) : String := replaceStr (replaceStr k "TTM" "") "Annual" ""

/-- Key renaming for the health bucket:
`k.replace('Quarterly','').replace('Annual','')`. -/
def stripHealth (k : String) : String := replaceStr (replaceStr k "Quarterly" "") "Annual" ""

end Util

/-- One assignment `d[k] = v` into a Python dict modelled as an
insertion-ordered association list: an existing key keeps its position and
gets the new value, a new key is appended. -/
def dictInsert {α : Type} (d : List (String × α)) (k : String) (v : α) : List (String × α) :=
  if d.any (fun kv => kv.1 == k) then d.map (fun kv => if kv.1 == k then (kv.1, v) else kv)
  else d ++ [(k, v)]

/-- A Python dict comprehension over an ordered pair sequence: assignments in
order, so a later pair with the same key overwrites the earlier value. -/
def dictOfPairs {α : Type} (pairs : List (String × α)) : List (String × α) :=
  pairs.foldl (fun d kv => dictInsert d kv.1 kv.2) []

/-- The output shape of `create_structured_compression` (lines 99-159). -/
structure Structured where
  symbol : Option String
  valuation : List (String × Option ℚ)
  profitability : List (String × Option ℚ)
  growth : List (String × Option ℚ)
  health : List (String × Option ℚ)
  performance : List (String × Option ℚ)
  efficiency : List (String × Option ℚ)
  dividend : List (String × Option ℚ)
  trendsQuarterly : List (String × List SeriesPoint)
  trendsAnnual : List (String × List SeriesPoint)
  deriving DecidableEq

namespace Util

/-- `create_structured_compression(data)` (lines 99-159): the raw metric
mapping projected into seven substring-matched buckets. Each bucket is a
Python dict comprehension: the matching pairs are renamed and then inserted
in order (`dictOfPairs`), so two raw keys that strip to the same bucket-local
name collide and the later one overwrites the earlier. The quarterly series
is cut to four points per metric and the annual series to three, likewise as
dict comprehensions. -/
def create_structured_compression (data : RawRecord) : Structured :=
  let m := data.metric
  let q := ((data.series.getD {}).quarterly).getD []
  let a := ((data.series.getD {}).annual).getD []
  { symbol := data.symbol
    valuation :=
      dictOfPairs ((m.filter (fun kv => valPred kv.1)).map (fun kv => (stripVal kv.1, kv.2)))
    profitability :=
      dictOfPairs ((m.filter (fun kv => profPred kv.1)).map (fun kv => (stripProf kv.1, kv.2)))
    growth := dictOfPairs (m.filter (fun kv => growthPred kv.1))
    health :=
      dictOfPairs ((m.filter (fun kv => healthPred kv.1)).map (fun kv => (stripHealth kv.1, kv.2)))
    performance := dictOfPairs (m.filter (fun kv => perfPred kv.1))
    efficiency := dictOfPairs (m.filter (fun kv => effPred kv.1))
    dividend := dictOfPairs (m.filter (fun kv => divPred kv.1))
    trendsQuarterly := dictOfPairs (q.map (fun kv => (kv.1, kv.2.take 4)))
    trendsAnnual := dictOfPairs (a.map (fun kv => (kv.1, kv.2.take 3))) }

end Util

/-! Concrete records used by the closed theorems below. -/

/-- A record with no symbol, no metrics and no series. -/
def emptyRec : RawRecord := {}

/-- A metric mapping whose current-ratio key is present but holds null. -/
def nullCurrentRat : Metric := [("currentRatioQuarterly", none)]

/-- The end-to-end metric mapping of the spec's testable-property example:
net margin 0.15, current ratio 1.8, debt-to-equity 0.5, EPS growth 15,
ROE 0.18. -/
def m4 : Metric :=
  [("netProfitMarginTTM", some (mkRat 3 20)),
   ("currentRatioQuarterly", some (mkRat 9 5)),
   ("totalDebt/totalEquityQuarterly", some (mkRat 1 2)),
   ("epsGrowthTTMYoy", some 15),
   ("roeTTM", some (mkRat 9 50))]

/-- The raw record wrapping `m4`. -/
def rec4 : RawRecord := { metric := m4 }

/-- A quarterly series with three EPS points. -/
def eps3Q : List (String × List SeriesPoint) := [("eps", [⟨1⟩, ⟨2⟩, ⟨3⟩])]

/-- A quarterly series with exactly four EPS points, most recent first. -/
def eps4Q : List (String × List SeriesPoint) := [("eps", [⟨mkRat 9 2⟩, ⟨3⟩, ⟨2⟩, ⟨1⟩])]

/-- A series object with two quarterly EPS points: latest 3, prior 2. -/
def sdQ2 : SeriesData := { quarterly := some [("eps", [⟨3⟩, ⟨2⟩])] }

/-- A record for the structured-compression witness: one key matching the
profitability and growth buckets at once, one key matching nothing, and
series longer than the truncation bounds. -/
def recC6 : RawRecord :=
  { metric := [("epsGrowthTTMYoy", some 15), ("xyzUnrelated", some 1)],
    series := some
      { quarterly := some [("eps", [⟨1⟩, ⟨2⟩, ⟨3⟩, ⟨4⟩, ⟨5⟩])],
        annual := some [("eps", [⟨1⟩, ⟨2⟩, ⟨3⟩, ⟨4⟩])] } }

/-- A record holding only a key that matches no category pattern. -/
def recUnrelated : RawRecord := { metric := [("xyzUnrelated", some 1)] }

/-- A record whose two metric keys collide in the valuation bucket: both
"psTTM" and "psAnnual" strip to "ps". -/
def recCollide : RawRecord := { metric := [("psTTM", some 1), ("psAnnual", some 2)] }

/-! Bridging lemmas: the executable rational helpers agree with the
library operations. -/

theorem ratMul_eq (a b : ℚ) : ratMul a b = a * b := by
  unfold ratMul
  rw [Rat.mkRat_eq_div, Int.cast_mul, Nat.cast_mul, ← div_mul_div_comm,
    Rat.num_div_den, Rat.num_div_den]

theorem ratSub_eq (a b : ℚ) : ratSub a b = a - b := by
  have ha : ((a.den : ℚ)) ≠ 0 := by exact_mod_cast a.den_nz
  have hb : ((b.den : ℚ)) ≠ 0 := by exact_mod_cast b.den_nz
  unfold ratSub
  rw [Rat.mkRat_eq_div]
  push_cast
  conv_rhs => rw [← Rat.num_div_den a, ← Rat.num_div_den b]
  rw [div_sub_div _ _ ha hb]
  ring_nf

theorem ratAbs_eq (a : ℚ) : ratAbs a = |a| := by
  unfold ratAbs
  split_ifs with h
  · have hneg : a < 0 := lt_of_not_ge (fun hge => absurd (Rat.num_nonneg.mpr hge) (not_le.mpr h))
    rw [Rat.mkRat_eq_div, Int.cast_neg, neg_div, Rat.num_div_den, abs_of_neg hneg]
  · exact (abs_of_nonneg (Rat.num_nonneg.mp (le_of_not_lt h))).symm

theorem ratDiv_eq (a b : ℚ) (hb : b ≠ 0) : ratDiv a b = a / b := by
  have ha : ((a.den : ℚ)) ≠ 0 := by exact_mod_cast a.den_nz
  have hbn : b.num ≠ 0 := Rat.num_ne_zero.mpr hb
  have hbnq : ((b.num : ℚ)) ≠ 0 := by exact_mod_cast hbn
  have hrhs : a / b = ((a.num * b.den : ℚ)) / ((a.den * b.num : ℚ)) := by
    conv_lhs => rw [← Rat.num_div_den b, div_div_eq_mul_div, ← Rat.num_div_den a,
      div_mul_eq_mul_div, div_div]
  unfold ratDiv
  rw [Rat.mkRat_eq_div, hrhs]
  rcases lt_trichotomy b.num 0 with h | h | h
  · have hs : b.num.sign = -1 := Int.sign_eq_neg_one_of_neg h
    have hnq : ((b.num.natAbs : ℚ)) = -(b.num : ℚ) := by
      rw [Int.cast_natAbs]
      exact_mod_cast abs_of_neg h
    rw [hs]
    push_cast
    rw [hnq, div_eq_div_iff (by simp [ha, hbnq]) (by simp [ha, hbnq])]
    ring
  · exact absurd h hbn
  · have hs : b.num.sign = 1 := Int.sign_eq_one_of_pos h
    have hnq : ((b.num.natAbs : ℚ)) = (b.num : ℚ) := by
      rw [Int.cast_natAbs]
      exact_mod_cast abs_of_pos h
    rw [hs]
    push_cast
    rw [hnq]
    ring_nf

/-! Destruction of successful monadic runs. -/

theorem bind_ok {α β : Type} {e : Except PyErr α} {f : α → Except PyErr β} {b : β}
    (h : e >>= f = Except.ok b) : ∃ a, e = Except.ok a ∧ f a = Except.ok b := by
  cases e with
  | error err => exact absurd h (by simp [Bind.bind, Except.bind])
  | ok a => exact ⟨a, rfl, by simpa [Bind.bind, Except.bind] using h⟩

/-- A successful summarizer run is the summary literal built from successful
component runs. -/
theorem summarize_ok_shape (data : RawRecord) (s : Summary)
    (h : Tools.summarize_finnhub_financials data = Except.ok s) :
    ∃ wcs lev rf hl health,
      Tools.workingCapitalStatus data.metric = Except.ok wcs ∧
      Tools.leverageAssessment data.metric = Except.ok lev ∧
      Tools.redFlagsList data.metric = Except.ok rf ∧
      Tools.highlightsList data.metric = Except.ok hl ∧
      Tools.assess_overall_health data.metric = Except.ok health ∧
      s = Tools.mkSummary data wcs lev rf hl health := by
  unfold Tools.summarize_finnhub_financials at h
  obtain ⟨wcs, h1, h⟩ := bind_ok h
  obtain ⟨lev, h2, h⟩ := bind_ok h
  obtain ⟨rf, h3, h⟩ := bind_ok h
  obtain ⟨hl, h4, h⟩ := bind_ok h
  obtain ⟨health, h5, h⟩ := bind_ok h
  refine ⟨wcs, lev, rf, hl, health, h1, h2, h3, h4, h5, ?_⟩
  simpa [Pure.pure, Except.pure] using h.symm

/-! Claim C1: the null-value behavior of `get_metric` and its downstream
threshold ladders. -/

/-- C1 counterexample: with `currentRatioQuarterly` present but null,
`get_metric` returns the stored null rather than the supplied default, and
the liquidity `working_capital_status` ladder raises a `TypeError` instead of
remaining total. -/
theorem c1_counterexample :
    Tools.get_metric nullCurrentRat "currentRatioQuarterly" (some 0) = none ∧
    Tools.get_metric nullCurrentRat "currentRatioQuarterly" (some 0) ≠ some 0 ∧
    Tools.workingCapitalStatus nullCurrentRat = Except.error PyErr.typeError := by
  decide

/-- C1 (amended): `get_metric(key, default)` returns the default exactly when
the key is absent; a key present with a null value yields that null, and a
downstream threshold rule such as the liquidity `working_capital_status`
ladder then raises a `TypeError` on the comparison instead of being total. -/
theorem c1_get_metric_null (metric : Metric) (key : String) (d : Option ℚ) :
    (metric.lookup key = none → Tools.get_metric metric key d = d) ∧
    (metric.lookup key = some none → Tools.get_metric metric key d = none) ∧
    (metric.lookup "currentRatioQuarterly" = some none →
      Tools.workingCapitalStatus metric = Except.error PyErr.typeError) := by
  refine ⟨fun h => ?_, fun h => ?_, fun h => ?_⟩
  · simp [Tools.get_metric, h]
  · simp [Tools.get_metric, h]
  · simp [Tools.workingCapitalStatus, Tools.get_metric, h, oGt, Bind.bind, Except.bind]

/-- C1 witness: the three cases of the amended claim at concrete inputs. -/
theorem c1_get_metric_null_witness :
    Tools.get_metric [] "absent" (some 5) = some 5 ∧
    Tools.get_metric [("absent", none)] "absent" (some 5) = none ∧
    Tools.workingCapitalStatus nullCurrentRat = Except.error PyErr.typeError :=
  ⟨(c1_get_metric_null [] "absent" (some 5)).1 rfl,
   (c1_get_metric_null [("absent", none)] "absent" (some 5)).2.1 rfl,
   (c1_get_metric_null nullCurrentRat "x" none).2.2 rfl⟩

/-! Claim C2: the detail-level dispatch of `create_comprehensive_summary`. -/

/-- C2 counterexample: an unrecognized detail level does not fail; the call
silently returns the detailed rendering (a view), exactly the detailed
view of the same record. -/
theorem c2_counterexample :
    Util.create_comprehensive_summary emptyRec "bogus" =
      Util.create_comprehensive_summary emptyRec "detailed" ∧
    Util.create_comprehensive_summary emptyRec "bogus" ≠ "" := by
  decide

/-- C2 (amended): for every record, any detail level other than `brief` and
`standard` — recognized or not — falls through to the detailed rendering;
there is no `InvalidDetailLevel` failure path. -/
theorem c2_unrecognized_level_falls_through (data : RawRecord) (level : String)
    (h1 : level ≠ "brief") (h2 : level ≠ "standard") :
    Util.create_comprehensive_summary data level =
      Util.create_comprehensive_summary data "detailed" := by
  simp [Util.create_comprehensive_summary, h1, h2]

/-- C2 witness: the amended claim at the unrecognized level `"bogus"`. -/
theorem c2_unrecognized_level_falls_through_witness :
    Util.create_comprehensive_summary emptyRec "bogus" =
      Util.create_comprehensive_summary emptyRec "detailed" :=
  c2_unrecognized_level_falls_through emptyRec "bogus" (by decide) (by decide)

/-! Claim C3: empty-metric defaults and non-empty signal lists. -/

/-- C3: a record with an empty metric mapping summarizes successfully with
`highlights = red_flags = ["None identified"]` and `overall_health = "Weak"`;
and for every record whose summarization succeeds, the two signal lists are
never empty. -/
theorem c3_none_identified (data : RawRecord) :
    (data.metric = [] →
      ∃ s, Tools.summarize_finnhub_financials data = Except.ok s ∧
        s.highlights = ["None identified"] ∧ s.redFlags = ["None identified"] ∧
        s.overallHealth = "Weak") ∧
    (∀ s, Tools.summarize_finnhub_financials data = Except.ok s →
      s.highlights ≠ [] ∧ s.redFlags ≠ []) := by
  constructor
  · intro h
    obtain ⟨sym, met, ser⟩ := data
    simp only at h
    subst h
    exact ⟨_, rfl, rfl, rfl, rfl⟩
  · intro s h
    obtain ⟨wcs, lev, rf, hl, health, _, _, _, _, _, hs⟩ := summarize_ok_shape data s h
    subst hs
    constructor
    · cases hl with
      | nil => simp [Tools.mkSummary]
      | cons a t => simp [Tools.mkSummary]
    · cases rf with
      | nil => simp [Tools.mkSummary]
      | cons a t => simp [Tools.mkSummary]

/-- C3 witness: both parts at the empty record. -/
theorem c3_none_identified_witness :
    (∃ s, Tools.summarize_finnhub_financials emptyRec = Except.ok s ∧
      s.highlights = ["None identified"] ∧ s.redFlags = ["None identified"] ∧
      s.overallHealth = "Weak") ∧
    ((Tools.mkSummary emptyRec "tight" "low" [] [] "Weak").highlights ≠ [] ∧
     (Tools.mkSummary emptyRec "tight" "low" [] [] "Weak").redFlags ≠ []) :=
  ⟨(c3_none_identified emptyRec).1 rfl,
   (c3_none_identified emptyRec).2 (Tools.mkSummary emptyRec "tight" "low" [] [] "Weak") rfl⟩

/-! Claim C4: the end-to-end example of the spec's testable properties. -/

/-- C4 counterexample: on the spec's example metric mapping the additive
health score is 10 (all five ladders score their 2-point branch), not the
claimed 2+2+2+1+1 = 8. -/
theorem c4_counterexample :
    Tools.totalScoreOf m4 = Except.ok 10 ∧ Tools.totalScoreOf m4 ≠ Except.ok 8 := by
  decide

/-- C4 (amended): on the example mapping the five ladders score 2 each, the
health score is 10, and the summary has `overall_health = "Strong"` with both
signal lists `["None identified"]`. -/
theorem c4_end_to_end :
    Tools.profitScore m4 = Except.ok 2 ∧ Tools.liquidityScore m4 = Except.ok 2 ∧
    Tools.leverageScore m4 = Except.ok 2 ∧ Tools.growthScore m4 = Except.ok 2 ∧
    Tools.roeScore m4 = Except.ok 2 ∧ Tools.totalScoreOf m4 = Except.ok 10 ∧
    ∃ s, Tools.summarize_finnhub_financials rec4 = Except.ok s ∧
      s.overallHealth = "Strong" ∧ s.highlights = ["None identified"] ∧
      s.redFlags = ["None identified"] := by
  exact ⟨by decide, by decide, by decide, by decide, by decide, by decide,
    _, rfl, rfl, rfl, rfl⟩

/-! Claim C5: the trend classifier ladder and its boundary behavior. -/

theorem trend_strong_iff (x g : ℚ) : Tools.get_trend (some x) (some g) = "strong growth" ↔ 10 < g := by
  simp only [Tools.get_trend]
  split_ifs with h1 h2 h3 h4 <;> simp_all

theorem trend_moderate_iff (x g : ℚ) :
    Tools.get_trend (some x) (some g) = "moderate growth" ↔ 5 < g ∧ g ≤ 10 := by
  simp only [Tools.get_trend]
  split_ifs with h1 h2 h3 h4 <;> simp_all

theorem trend_declining_iff (x g : ℚ) :
    Tools.get_trend (some x) (some g) = "declining" ↔ g < -10 := by
  simp only [Tools.get_trend]
  split_ifs with h1 h2 h3 h4 <;> simp_all
  all_goals linarith

theorem trend_slight_iff (x g : ℚ) :
    Tools.get_trend (some x) (some g) = "slight decline" ↔ -10 ≤ g ∧ g < 0 := by
  simp only [Tools.get_trend]
  split_ifs with h1 h2 h3 h4 <;> simp_all
  all_goals intro _
  all_goals linarith

theorem trend_stable_iff (x g : ℚ) :
    Tools.get_trend (some x) (some g) = "stable" ↔ 0 ≤ g ∧ g ≤ 5 := by
  simp only [Tools.get_trend]
  split_ifs with h1 h2 h3 h4 <;> simp_all
  all_goals try (intro _)
  all_goals linarith

/-- C5 counterexample: at growth exactly 10 the classifier returns
"moderate growth", not the claimed "stable". -/
theorem c5_counterexample :
    Tools.get_trend (some 0) (some 10) = "moderate growth" ∧
    Tools.get_trend (some 0) (some 10) ≠ "stable" := by
  decide

/-- C5 (amended): unknown inputs classify as "stable"; for known inputs the
ladder is "strong growth" iff growth > 10, "moderate growth" iff
5 < growth ≤ 10, "declining" iff growth < -10, "slight decline" iff
-10 ≤ growth < 0, and "stable" iff 0 ≤ growth ≤ 5; in particular a known
record with growth exactly 10 classifies as "moderate growth" (the less
extreme bucket) and growth 10.0001 as "strong growth". -/
theorem c5_trend_classifier (x g : ℚ) :
    Tools.get_trend (some x) none = "stable" ∧
    Tools.get_trend none (some g) = "stable" ∧
    Tools.get_trend none none = "stable" ∧
    (Tools.get_trend (some x) (some g) = "strong growth" ↔ 10 < g) ∧
    (Tools.get_trend (some x) (some g) = "moderate growth" ↔ 5 < g ∧ g ≤ 10) ∧
    (Tools.get_trend (some x) (some g) = "declining" ↔ g < -10) ∧
    (Tools.get_trend (some x) (some g) = "slight decline" ↔ -10 ≤ g ∧ g < 0) ∧
    (Tools.get_trend (some x) (some g) = "stable" ↔ 0 ≤ g ∧ g ≤ 5) ∧
    Tools.get_trend (some x) (some 10) = "moderate growth" ∧
    Tools.get_trend (some x) (some (mkRat 100001 10000)) = "strong growth" := by
  refine ⟨rfl, rfl, rfl, trend_strong_iff x g, trend_moderate_iff x g,
    trend_declining_iff x g, trend_slight_iff x g, trend_stable_iff x g, ?_, ?_⟩
  · exact (trend_moderate_iff x 10).mpr (by constructor <;> norm_num)
  · exact (trend_strong_iff x (mkRat 100001 10000)).mpr (by decide)

/-! Claim C6: structured compression is a substring-pattern projection.
The buckets are Python dict comprehensions, so they carry overwrite
semantics: the lemmas below describe membership in `dictOfPairs`. -/

theorem dictInsert_self_mem {α : Type} (d : List (String × α)) (k : String) (v : α) :
    (k, v) ∈ dictInsert d k v := by
  unfold dictInsert
  split_ifs with hc
  · obtain ⟨kv, hmem, hbeq⟩ := List.any_eq_true.mp hc
    have hk : kv.1 = k := by simpa using hbeq
    refine List.mem_map.mpr ⟨kv, hmem, ?_⟩
    simp [hbeq, hk]
  · exact List.mem_append_right _ (by simp)

theorem dictInsert_key_mono {α : Type} (d : List (String × α)) (k : String) (k' : String)
    (v' : α) (h : ∃ w, (k, w) ∈ d) : ∃ w, (k, w) ∈ dictInsert d k' v' := by
  obtain ⟨w, hw⟩ := h
  unfold dictInsert
  split_ifs with hc
  · refine ⟨if (k == k') = true then v' else w, List.mem_map.mpr ⟨(k, w), hw, ?_⟩⟩
    by_cases hkk : (k == k') = true
    · simp [hkk]
    · simp [hkk]
  · exact ⟨w, List.mem_append_left _ hw⟩

theorem dictInsert_mem_preserve {α : Type} (d : List (String × α)) (k : String) (v : α)
    (k' : String) (v' : α) (hne : k ≠ k') (h : (k, v) ∈ d) : (k, v) ∈ dictInsert d k' v' := by
  unfold dictInsert
  split_ifs with hc
  · refine List.mem_map.mpr ⟨(k, v), h, ?_⟩
    simp [hne]
  · exact List.mem_append_left _ h

/-- A key written at least once is a key of the resulting dict. -/
theorem dictOfPairs_key_present {α : Type} (pairs : List (String × α)) (k : String) (v : α)
    (h : (k, v) ∈ pairs) : ∃ w, (k, w) ∈ dictOfPairs pairs := by
  have H : ∀ (ps : List (String × α)) (d : List (String × α)),
      ((∃ w, (k, w) ∈ d) ∨ ∃ v', (k, v') ∈ ps) →
      ∃ w, (k, w) ∈ ps.foldl (fun d kv => dictInsert d kv.1 kv.2) d := by
    intro ps
    induction ps with
    | nil => intro d hd; exact hd.resolve_right (by simp)
    | cons p rest ih =>
      intro d hd
      simp only [List.foldl_cons]
      apply ih
      rcases hd with hl | ⟨v', hv'⟩
      · exact Or.inl (dictInsert_key_mono d k p.1 p.2 hl)
      · rcases List.mem_cons.mp hv' with heq | hrest
        · left
          refine ⟨p.2, ?_⟩
          have hk : p.1 = k := (congrArg Prod.fst heq).symm
          rw [hk]
          exact dictInsert_self_mem d k p.2
        · exact Or.inr ⟨v', hrest⟩
  exact H pairs [] (Or.inr ⟨v, h⟩)

/-- When every writer of a key writes the same value, the dict holds that
exact pair (in particular whenever the key is written only once). -/
theorem dictOfPairs_mem_unique {α : Type} (pairs : List (String × α)) (k : String) (v : α)
    (h : (k, v) ∈ pairs) (hu : ∀ p ∈ pairs, p.1 = k → p.2 = v) :
    (k, v) ∈ dictOfPairs pairs := by
  have H : ∀ (ps : List (String × α)) (d : List (String × α)),
      ((k, v) ∈ d ∨ (k, v) ∈ ps) → (∀ p ∈ ps, p.1 = k → p.2 = v) →
      (k, v) ∈ ps.foldl (fun d kv => dictInsert d kv.1 kv.2) d := by
    intro ps
    induction ps with
    | nil => intro d hd _; exact hd.resolve_right (by simp)
    | cons p rest ih =>
      intro d hd hup
      simp only [List.foldl_cons]
      apply ih _ ?_ (fun q hq => hup q (List.mem_cons_of_mem p hq))
      by_cases hpk : p.1 = k
      · have hv : p.2 = v := hup p (List.mem_cons_self p rest) hpk
        left
        rw [hpk, hv]
        exact dictInsert_self_mem d k v
      · rcases hd with hl | hmem
        · exact Or.inl (dictInsert_mem_preserve d k v p.1 p.2 (fun hkp => hpk hkp.symm) hl)
        · rcases List.mem_cons.mp hmem with heq | hrest
          · exact absurd (congrArg Prod.fst heq).symm hpk
          · exact Or.inr hrest
  exact H pairs [] (Or.inr h) hu

/-- C6: every metric key satisfying a category's pattern test puts its
(renamed) key into that category's bucket, independently for every matching
category; the exact (key, value) pair is in the bucket whenever no other
matching metric entry strips to the same bucket-local name with a different
value — and when two keys do collide, the later write wins, exactly as a
Python dict comprehension (witnessed by `recCollide`: psTTM/psAnnual both
strip to "ps" and the bucket holds only ("ps", 2)). The quarterly series is
cut to its first four points per metric and the annual series to its first
three, and a key matching no pattern (such as "xyzUnrelated") produces no
bucket entry at all. -/
theorem c6_structured_projection (data : RawRecord) (k : String) (v : Option ℚ)
    (hmem : (k, v) ∈ data.metric) :
    (Util.valPred k = true →
      ∃ w, (Util.stripVal k, w) ∈ (Util.create_structured_compression data).valuation) ∧
    (Util.profPred k = true →
      ∃ w, (Util.stripProf k, w) ∈ (Util.create_structured_compression data).profitability) ∧
    (Util.growthPred k = true →
      ∃ w, (k, w) ∈ (Util.create_structured_compression data).growth) ∧
    (Util.healthPred k = true →
      ∃ w, (Util.stripHealth k, w) ∈ (Util.create_structured_compression data).health) ∧
    (Util.perfPred k = true →
      ∃ w, (k, w) ∈ (Util.create_structured_compression data).performance) ∧
    (Util.effPred k = true →
      ∃ w, (k, w) ∈ (Util.create_structured_compression data).efficiency) ∧
    (Util.divPred k = true →
      ∃ w, (k, w) ∈ (Util.create_structured_compression data).dividend) ∧
    (Util.valPred k = true →
      (∀ p ∈ data.metric, Util.valPred p.1 = true → Util.stripVal p.1 = Util.stripVal k →
        p.2 = v) →
      (Util.stripVal k, v) ∈ (Util.create_structured_compression data).valuation) ∧
    (Util.profPred k = true →
      (∀ p ∈ data.metric, Util.profPred p.1 = true → Util.stripProf p.1 = Util.stripProf k →
        p.2 = v) →
      (Util.stripProf k, v) ∈ (Util.create_structured_compression data).profitability) ∧
    (Util.growthPred k = true →
      (∀ p ∈ data.metric, Util.growthPred p.1 = true → p.1 = k → p.2 = v) →
      (k, v) ∈ (Util.create_structured_compression data).growth) ∧
    (Util.healthPred k = true →
      (∀ p ∈ data.metric, Util.healthPred p.1 = true →
        Util.stripHealth p.1 = Util.stripHealth k → p.2 = v) →
      (Util.stripHealth k, v) ∈ (Util.create_structured_compression data).health) ∧
    (Util.perfPred k = true →
      (∀ p ∈ data.metric, Util.perfPred p.1 = true → p.1 = k → p.2 = v) →
      (k, v) ∈ (Util.create_structured_compression data).performance) ∧
    (Util.effPred k = true →
      (∀ p ∈ data.metric, Util.effPred p.1 = true → p.1 = k → p.2 = v) →
      (k, v) ∈ (Util.create_structured_compression data).efficiency) ∧
    (Util.divPred k = true →
      (∀ p ∈ data.metric, Util.divPred p.1 = true → p.1 = k → p.2 = v) →
      (k, v) ∈ (Util.create_structured_compression data).dividend) ∧
    (∀ sd qlist name pts, data.series = some sd → sd.quarterly = some qlist →
      (name, pts) ∈ qlist → (∀ p ∈ qlist, p.1 = name → p.2 = pts) →
      (name, pts.take 4) ∈ (Util.create_structured_compression data).trendsQuarterly) ∧
    (∀ sd alist name pts, data.series = some sd → sd.annual = some alist →
      (name, pts) ∈ alist → (∀ p ∈ alist, p.1 = name → p.2 = pts) →
      (name, pts.take 3) ∈ (Util.create_structured_compression data).trendsAnnual) ∧
    ((Util.create_structured_compression recCollide).valuation = [("ps", some 2)]) ∧
    ((Util.create_structured_compression recUnrelated).valuation = [] ∧
     (Util.create_structured_compression recUnrelated).profitability = [] ∧
     (Util.create_structured_compression recUnrelated).growth = [] ∧
     (Util.create_structured_compression recUnrelated).health = [] ∧
     (Util.create_structured_compression recUnrelated).performance = [] ∧
     (Util.create_structured_compression recUnrelated).efficiency = [] ∧
     (Util.create_structured_compression recUnrelated).dividend = []) := by
  refine ⟨fun hp => ?_, fun hp => ?_, fun hp => ?_, fun hp => ?_, fun hp => ?_, fun hp => ?_,
    fun hp => ?_, fun hp hcol => ?_, fun hp hcol => ?_, fun hp hcol => ?_, fun hp hcol => ?_,
    fun hp hcol => ?_, fun hp hcol => ?_, fun hp hcol => ?_, ?_, ?_, by decide, by decide⟩
  · exact dictOfPairs_key_present _ _ v
      (List.mem_map.mpr ⟨(k, v), List.mem_filter.mpr ⟨hmem, hp⟩, rfl⟩)
  · exact dictOfPairs_key_present _ _ v
      (List.mem_map.mpr ⟨(k, v), List.mem_filter.mpr ⟨hmem, hp⟩, rfl⟩)
  · exact dictOfPairs_key_present _ _ v (List.mem_filter.mpr ⟨hmem, hp⟩)
  · exact dictOfPairs_key_present _ _ v
      (List.mem_map.mpr ⟨(k, v), List.mem_filter.mpr ⟨hmem, hp⟩, rfl⟩)
  · exact dictOfPairs_key_present _ _ v (List.mem_filter.mpr ⟨hmem, hp⟩)
  · exact dictOfPairs_key_present _ _ v (List.mem_filter.mpr ⟨hmem, hp⟩)
  · exact dictOfPairs_key_present _ _ v (List.mem_filter.mpr ⟨hmem, hp⟩)
  · refine dictOfPairs_mem_unique _ _ _
      (List.mem_map.mpr ⟨(k, v), List.mem_filter.mpr ⟨hmem, hp⟩, rfl⟩) ?_
    intro p hpmem hp1
    obtain ⟨q, hq, hqp⟩ := List.mem_map.mp hpmem
    obtain ⟨hqmem, hqpred⟩ := List.mem_filter.mp hq
    subst hqp
    exact hcol q hqmem hqpred hp1
  · refine dictOfPairs_mem_unique _ _ _
      (List.mem_map.mpr ⟨(k, v), List.mem_filter.mpr ⟨hmem, hp⟩, rfl⟩) ?_
    intro p hpmem hp1
    obtain ⟨q, hq, hqp⟩ := List.mem_map.mp hpmem
    obtain ⟨hqmem, hqpred⟩ := List.mem_filter.mp hq
    subst hqp
    exact hcol q hqmem hqpred hp1
  · refine dictOfPairs_mem_unique _ _ _ (List.mem_filter.mpr ⟨hmem, hp⟩) ?_
    intro p hpmem hp1
    obtain ⟨hq, hqpred⟩ := List.mem_filter.mp hpmem
    exact hcol p hq hqpred hp1
  · refine dictOfPairs_mem_unique _ _ _
      (List.mem_map.mpr ⟨(k, v), List.mem_filter.mpr ⟨hmem, hp⟩, rfl⟩) ?_
    intro p hpmem hp1
    obtain ⟨q, hq, hqp⟩ := List.mem_map.mp hpmem
    obtain ⟨hqmem, hqpred⟩ := List.mem_filter.mp hq
    subst hqp
    exact hcol q hqmem hqpred hp1
  · refine dictOfPairs_mem_unique _ _ _ (List.mem_filter.mpr ⟨hmem, hp⟩) ?_
    intro p hpmem hp1
    obtain ⟨hq, hqpred⟩ := List.mem_filter.mp hpmem
    exact hcol p hq hqpred hp1
  · refine dictOfPairs_mem_unique _ _ _ (List.mem_filter.mpr ⟨hmem, hp⟩) ?_
    intro p hpmem hp1
    obtain ⟨hq, hqpred⟩ := List.mem_filter.mp hpmem
    exact hcol p hq hqpred hp1
  · refine dictOfPairs_mem_unique _ _ _ (List.mem_filter.mpr ⟨hmem, hp⟩) ?_
    intro p hpmem hp1
    obtain ⟨hq, hqpred⟩ := List.mem_filter.mp hpmem
    exact hcol p hq hqpred hp1
  · intro sd qlist name pts h1 h2 hmemq huq
    simp only [Util.create_structured_compression, h1, h2, Option.getD_some]
    refine dictOfPairs_mem_unique _ _ _ (List.mem_map.mpr ⟨(name, pts), hmemq, rfl⟩) ?_
    intro p hpmem hp1
    obtain ⟨q, hq, hqp⟩ := List.mem_map.mp hpmem
    subst hqp
    rw [huq q hq hp1]
  · intro sd alist name pts h1 h2 hmema hua
    simp only [Util.create_structured_compression, h1, h2, Option.getD_some]
    refine dictOfPairs_mem_unique _ _ _ (List.mem_map.mpr ⟨(name, pts), hmema, rfl⟩) ?_
    intro p hpmem hp1
    obtain ⟨q, hq, hqp⟩ := List.mem_map.mp hpmem
    subst hqp
    rw [hua q hq hp1]

/-- C6 witness: "epsGrowthTTMYoy" lands in the profitability bucket (renamed
"epsGrowthYoy") and in the growth bucket at once — no other key of `recC6`
collides with it — and the series of `recC6` are truncated to four and three
points. -/
theorem c6_structured_projection_witness :
    ("epsGrowthYoy", some (15 : ℚ)) ∈ (Util.create_structured_compression recC6).profitability ∧
    ("epsGrowthTTMYoy", some (15 : ℚ)) ∈ (Util.create_structured_compression recC6).growth ∧
    ("eps", [⟨1⟩, ⟨2⟩, ⟨3⟩, ⟨4⟩]) ∈ (Util.create_structured_compression recC6).trendsQuarterly ∧
    ("eps", [⟨1⟩, ⟨2⟩, ⟨3⟩]) ∈ (Util.create_structured_compression recC6).trendsAnnual := by
  obtain ⟨-, -, -, -, -, -, -, -, hprof, hgrowth, -, -, -, -, hq, ha, -, -⟩ :=
    c6_structured_projection recC6 "epsGrowthTTMYoy" (some 15) (by decide)
  exact ⟨hprof (by decide) (by decide), hgrowth (by decide) (by decide),
    hq _ _ "eps" [⟨1⟩, ⟨2⟩, ⟨3⟩, ⟨4⟩, ⟨5⟩] rfl rfl (by decide) (by decide),
    ha _ _ "eps" [⟨1⟩, ⟨2⟩, ⟨3⟩, ⟨4⟩] rfl rfl (by decide) (by decide)⟩

/-! Claim C7: the trend-sequence helper of the comprehensive summary. -/

/-- C7: `get_trend(series_name, periods=4)` returns null when the metric is
absent or has fewer than four points; with at least four points it renders
the first four values, reversed to chronological order, to two decimals
joined by the arrow separator — four rendered entries. -/
theorem c7_trend_sequence (q_series : List (String × List SeriesPoint)) (name : String) :
    (q_series.lookup name = none → Util.get_trend q_series name 4 = none) ∧
    (∀ lst, q_series.lookup name = some lst → lst.length < 4 →
      Util.get_trend q_series name 4 = none) ∧
    (∀ lst, q_series.lookup name = some lst → 4 ≤ lst.length →
      Util.get_trend q_series name 4 =
        some (String.intercalate " → "
          (((lst.take 4).map (fun item => item.v)).reverse.map (fun v => formatFixed v 2))) ∧
      ((((lst.take 4).map (fun item => item.v)).reverse.map (fun v => formatFixed v 2)).length
        = 4)) := by
  refine ⟨fun h => ?_, fun lst h hlen => ?_, fun lst h hlen => ⟨?_, ?_⟩⟩
  · simp [Util.get_trend, h]
  · simp [Util.get_trend, h, hlen]
  · simp [Util.get_trend, h, Nat.not_lt.mpr hlen]
  · simp only [List.length_map, List.length_reverse, List.length_take]
    omega

/-- C7 witness: a three-point series yields null; a four-point series
(4.5, 3, 2, 1, most recent first) yields the chronological four-entry
rendering. -/
theorem c7_trend_sequence_witness :
    Util.get_trend eps3Q "eps" 4 = none ∧
    Util.get_trend eps4Q "eps" 4 = some "1.00 → 2.00 → 3.00 → 4.50" :=
  ⟨(c7_trend_sequence eps3Q "eps").2.1 [⟨1⟩, ⟨2⟩, ⟨3⟩] rfl (by decide),
   (((c7_trend_sequence eps4Q "eps").2.2 [⟨mkRat 9 2⟩, ⟨3⟩, ⟨2⟩, ⟨1⟩] rfl (by decide)).1).trans
     (by decide)⟩

/-! Claim C8: the quarterly trend category and its guarded division. -/

/-- C8: the quarterly-trend mapping is populated only when a quarterly EPS
series with at least two points (among its first four) exists, and then
`eps_qoq_change` renders `(latest - prior) / |prior| * 100`, with 0
substituted when the prior quarter's EPS is 0 — a guarded total computation
for every series input (the embedding is a total function). -/
theorem c8_quarterly_trend (sd : SeriesData) :
    (Tools.quarterlyTrendOf sd ≠ [] →
      ∃ q eps, sd.quarterly = some q ∧ q.lookup "eps" = some eps ∧ 2 ≤ eps.length) ∧
    (∀ q eps p0 p1 rest, sd.quarterly = some q → q.lookup "eps" = some eps →
      eps.take 4 = p0 :: p1 :: rest →
      Tools.quarterlyTrendOf sd =
        [("latest_quarter_eps", SVal.num p0.v),
         ("prior_quarter_eps", SVal.num p1.v),
         ("eps_qoq_change", SVal.str (Tools.format_pct
           (some (if p1.v ≠ 0 then (p0.v - p1.v) / |p1.v| * 100 else 0)) 1))]) := by
  obtain ⟨qopt, aopt⟩ := sd
  constructor
  · intro hne
    cases qopt with
    | none => simp [Tools.quarterlyTrendOf] at hne
    | some q =>
      cases he : q.lookup "eps" with
      | none => simp [Tools.quarterlyTrendOf, he] at hne
      | some eps =>
        refine ⟨q, eps, rfl, he, ?_⟩
        cases h4 : eps.take 4 with
        | nil => simp [Tools.quarterlyTrendOf, he, h4] at hne
        | cons p0 t =>
          cases t with
          | nil => simp [Tools.quarterlyTrendOf, he, h4] at hne
          | cons p1 r =>
            have hlen := congrArg List.length h4
            simp [List.length_take] at hlen
            omega
  · intro q eps p0 p1 rest hq he h4
    have hq' : qopt = some q := hq
    subst hq'
    have harith : (if p1.v ≠ 0 then ratMul (ratDiv (ratSub p0.v p1.v) (ratAbs p1.v)) 100 else 0)
        = (if p1.v ≠ 0 then (p0.v - p1.v) / |p1.v| * 100 else 0) := by
      split_ifs with hp
      · rw [ratSub_eq, ratAbs_eq, ratDiv_eq _ _ (abs_ne_zero.mpr hp), ratMul_eq]
      · rfl
    simp only [Tools.quarterlyTrendOf, he, h4, harith]

/-- C8 witness: a two-point quarterly EPS series (latest 3, prior 2) yields
latest 3, prior 2 and a 50.00% quarter-over-quarter change. -/
theorem c8_quarterly_trend_witness :
    Tools.quarterlyTrendOf sdQ2 =
      [("latest_quarter_eps", SVal.num 3), ("prior_quarter_eps", SVal.num 2),
       ("eps_qoq_change", SVal.str "50.00%")] := by
  have h := (c8_quarterly_trend sdQ2).2 [("eps", [⟨3⟩, ⟨2⟩])] [⟨3⟩, ⟨2⟩] ⟨3⟩ ⟨2⟩ [] rfl rfl rfl
  rw [h]
  have habs : |((⟨2⟩ : SeriesPoint).v)| = 2 := abs_of_pos (by norm_num)
  have hval : (if ((⟨2⟩ : SeriesPoint).v) ≠ 0 then
      ((⟨3⟩ : SeriesPoint).v - (⟨2⟩ : SeriesPoint).v) / |((⟨2⟩ : SeriesPoint).v)| * 100 else 0)
      = (50 : ℚ) := by
    rw [if_pos (by norm_num), habs]
    norm_num
  rw [hval]
  decide

/-! Claim C9: the deliberate default asymmetry on missing debt-to-equity. -/

/-- C9: when the debt-to-equity metric is absent, the `leverage_assessment`
ladder (default 0 against > 2.0 / > 1.0) reads "low", while the health
score's leverage ladder (default 3 against < 1.0 / < 2.0) contributes 0 of
its 2 possible points; a successful summary of such a record indeed carries
`leverage_assessment = "low"`. -/
theorem c9_leverage_default_asymmetry (metric : Metric)
    (h : metric.lookup "totalDebt/totalEquityQuarterly" = none) :
    Tools.leverageAssessment metric = Except.ok "low" ∧
    Tools.leverageScore metric = Except.ok 0 ∧
    (∀ data s, data.metric = metric → Tools.summarize_finnhub_financials data = Except.ok s →
      s.leverage.lookup "leverage_assessment" = some (SVal.str "low")) := by
  have h0 : Tools.get_metric metric "totalDebt/totalEquityQuarterly" (some 0) = some 0 := by
    simp [Tools.get_metric, h]
  have h3 : Tools.get_metric metric "totalDebt/totalEquityQuarterly" (some 3) = some 3 := by
    simp [Tools.get_metric, h]
  have hassess : Tools.leverageAssessment metric = Except.ok "low" := by
    simp [Tools.leverageAssessment, h0, oGt, Bind.bind, Except.bind]
    norm_num [Pure.pure, Except.pure]
  have hscore : Tools.leverageScore metric = Except.ok 0 := by
    simp [Tools.leverageScore, h3, oLt, Bind.bind, Except.bind]
    norm_num [Pure.pure, Except.pure]
  refine ⟨hassess, hscore, fun data s hd hs => ?_⟩
  obtain ⟨wcs, lev, rf, hl, health, _, h2, _, _, _, hsum⟩ := summarize_ok_shape data s hs
  rw [hd, hassess] at h2
  cases h2
  subst hsum
  rfl

/-- C9 witness: the empty metric mapping, where the debt-to-equity key is
absent. -/
theorem c9_leverage_default_asymmetry_witness :
    Tools.leverageAssessment [] = Except.ok "low" ∧
    Tools.leverageScore [] = Except.ok 0 ∧
    (Tools.mkSummary emptyRec "tight" "low" [] [] "Weak").leverage.lookup
      "leverage_assessment" = some (SVal.str "low") :=
  ⟨(c9_leverage_default_asymmetry [] rfl).1,
   (c9_leverage_default_asymmetry [] rfl).2.1,
   (c9_leverage_default_asymmetry [] rfl).2.2 emptyRec
     (Tools.mkSummary emptyRec "tight" "low" [] [] "Weak") rfl rfl⟩

/-! Claim C10: the symbol fallbacks of the two derivation paths. -/

/-- C10: the categorized summary's `company` field is the record's symbol
upper-cased, the literal "UNKNOWN" when the symbol key is absent; the three
string renderings of `create_comprehensive_summary` instead open with the
fallback "Unknown" in their headers. -/
theorem c10_symbol_defaults (data : RawRecord) :
    (∀ s, Tools.summarize_finnhub_financials data = Except.ok s →
      s.company = upperStr (data.symbol.getD "UNKNOWN")) ∧
    (data.symbol = none →
      (∀ s, Tools.summarize_finnhub_financials data = Except.ok s → s.company = "UNKNOWN") ∧
      Util.create_comprehensive_summary data "brief" =
        "Unknown" ++ Util.briefBody data.metric ∧
      Util.create_comprehensive_summary data "standard" =
        "Unknown" ++ (" Financial Summary:\n\n" ++
          String.intercalate "\n\n" (Util.standardSections data.metric)) ∧
      Util.create_comprehensive_summary data "detailed" =
        "Unknown" ++ (" Comprehensive Financial Analysis:\n\n" ++
          String.intercalate "\n\n" (Util.standardSections data.metric ++
            Util.detailedExtraSections data.metric (((data.series.getD {}).quarterly).getD [])
              (((data.series.getD {}).annual).getD [])))) := by
  have hcompany : ∀ s, Tools.summarize_finnhub_financials data = Except.ok s →
      s.company = upperStr (data.symbol.getD "UNKNOWN") := by
    intro s hs
    obtain ⟨wcs, lev, rf, hl, health, _, _, _, _, _, hsum⟩ := summarize_ok_shape data s hs
    subst hsum
    rfl
  refine ⟨hcompany, fun hsym => ⟨fun s hs => ?_, ?_, ?_, ?_⟩⟩
  · rw [hcompany s hs, hsym]
    decide
  · simp [Util.create_comprehensive_summary, hsym]
  · simp [Util.create_comprehensive_summary, hsym]
  · simp [Util.create_comprehensive_summary, hsym]

/-- C10 witness: the empty record, whose symbol key is absent. -/
theorem c10_symbol_defaults_witness :
    (Tools.mkSummary emptyRec "tight" "low" [] [] "Weak").company = "UNKNOWN" ∧
    Util.create_comprehensive_summary emptyRec "brief" = "Unknown" ++ Util.briefBody [] :=
  ⟨((c10_symbol_defaults emptyRec).2 rfl).1
      (Tools.mkSummary emptyRec "tight" "low" [] [] "Weak") rfl,
   ((c10_symbol_defaults emptyRec).2 rfl).2.1⟩
